import Mathlib

/-!
Shallow embedding of the `drone` MPU6050 driver (src/mpu6050.rs, src/errors.rs)
and proofs about its register codecs, bus transactions and error propagation.

The Rust code uses the `modular_bitfield` crate, which packs the first declared
field into the least significant bits of the byte.  Bytes are modelled as `Nat`
values, kept below 256 by construction.  The asynchronous I2C bus is modelled
as a stub (`I2cStub`) deciding the outcome of each transaction, and every
driver operation returns its result together with the list of bus transactions
(and timer suspensions) it performed, in order.
-/

set_option autoImplicit false

namespace Drone

/-- Device bus address used for every transaction (`pub const ADDR: u8 = 0xD0`). -/
def ADDR : Nat := 0xD0

/-- Expected identity-register value (`pub const DEFAULT_SLAVE_ADDR: u8 = 0x68`). -/
def DEFAULT_SLAVE_ADDR : Nat := 0x68

/-- Register offset of the gyro configuration register (`GYRO_CONFIG: 0x1B`). -/
def GYRO_CONFIG : Nat := 0x1B

/-- Register offset of the accel configuration register (`ACCEL_CONFIG: 0x1C`). -/
def ACCEL_CONFIG : Nat := 0x1C

/-- Register offset of power management register 1 (`PWR_MGMT_1: 0x6B`). -/
def PWR_MGMT_1 : Nat := 0x6B

/-- Register offset of the identity register (`WHO_AM_I: 0x75`). -/
def WHO_AM_I : Nat := 0x75

/-- Clock source selection, `enum ClockSource` with explicit discriminants 0..7. -/
inductive ClockSource where
  | Internal8MHz
  | PllXAxis
  | PllYAxis
  | PllZAxis
  | PllExternal32768kHz
  | PllExternal192kHz
  | Reserved
  | StopClockReset
deriving DecidableEq, Repr

/-- Discriminant of a `ClockSource` variant, as packed by `modular_bitfield` (3 bits). -/
def ClockSource.toBits : ClockSource → Nat
  | .Internal8MHz => 0
  | .PllXAxis => 1
  | .PllYAxis => 2
  | .PllZAxis => 3
  | .PllExternal32768kHz => 4
  | .PllExternal192kHz => 5
  | .Reserved => 6
  | .StopClockReset => 7

/-- Decode a 3-bit value into a `ClockSource` variant (total on 0..7). -/
def ClockSource.ofBits : Nat → ClockSource
  | 0 => .Internal8MHz
  | 1 => .PllXAxis
  | 2 => .PllYAxis
  | 3 => .PllZAxis
  | 4 => .PllExternal32768kHz
  | 5 => .PllExternal192kHz
  | 6 => .Reserved
  | _ => .StopClockReset

/-- Accelerometer full-scale range, `enum AccelRange` with discriminants 0..3. -/
inductive AccelRange where
  | G2
  | G4
  | G8
  | G16
deriving DecidableEq, Repr

/-- Discriminant of an `AccelRange` variant (2 bits). -/
def AccelRange.toBits : AccelRange → Nat
  | .G2 => 0
  | .G4 => 1
  | .G8 => 2
  | .G16 => 3

/-- Decode a 2-bit value into an `AccelRange` variant (total on 0..3). -/
def AccelRange.ofBits : Nat → AccelRange
  | 0 => .G2
  | 1 => .G4
  | 2 => .G8
  | _ => .G16

/-- Gyroscope full-scale range, `enum GyroRange` with discriminants 0..3. -/
inductive GyroRange where
  | D250
  | D500
  | D1000
  | D2000
deriving DecidableEq, Repr

/-- Discriminant of a `GyroRange` variant (2 bits). -/
def GyroRange.toBits : GyroRange → Nat
  | .D250 => 0
  | .D500 => 1
  | .D1000 => 2
  | .D2000 => 3

/-- Decode a 2-bit value into a `GyroRange` variant (total on 0..3). -/
def GyroRange.ofBits : Nat → GyroRange
  | 0 => .D250
  | 1 => .D500
  | 2 => .D1000
  | _ => .D2000

/-- The `PwrMgmt1` bitfield struct: fields in declaration order
`clksel` (3 bits), `temp_dis`, one skipped bit, `cycle`, `sleep`,
`device_reset`.  `modular_bitfield` packs the first declared field into the
least significant bits, so `clksel` occupies bits 0-2 and `device_reset`
bit 7; the skipped (reserved) bit is bit 4. -/
structure PwrMgmt1 where
  clksel : ClockSource
  temp_dis : Bool
  cycle : Bool
  sleep : Bool
  device_reset : Bool
deriving DecidableEq, Repr

/-- `PwrMgmt1::new()`: the all-zero bitfield. -/
def PwrMgmt1.new : PwrMgmt1 :=
  ⟨.Internal8MHz, false, false, false, false⟩

/-- Builder `with_clksel`, returning a copy with only that field changed. -/
def PwrMgmt1.with_clksel (x : PwrMgmt1) (c : ClockSource) : PwrMgmt1 :=
  { x with clksel := c }

/-- Builder `with_temp_dis`. -/
def PwrMgmt1.with_temp_dis (x : PwrMgmt1) (b : Bool) : PwrMgmt1 :=
  { x with temp_dis := b }

/-- Builder `with_cycle`. -/
def PwrMgmt1.with_cycle (x : PwrMgmt1) (b : Bool) : PwrMgmt1 :=
  { x with cycle := b }

/-- Builder `with_sleep`. -/
def PwrMgmt1.with_sleep (x : PwrMgmt1) (b : Bool) : PwrMgmt1 :=
  { x with sleep := b }

/-- Builder `with_device_reset`. -/
def PwrMgmt1.with_device_reset (x : PwrMgmt1) (b : Bool) : PwrMgmt1 :=
  { x with device_reset := b }

/-- The packed byte of a `PwrMgmt1` value (`.bytes[0]` in the source):
`clksel` at bits 0-2, `temp_dis` at bit 3, the skipped reserved bit at
bit 4 (always 0), `cycle` at bit 5, `sleep` at bit 6, `device_reset` at
bit 7. -/
def PwrMgmt1.bytes (x : PwrMgmt1) : Nat :=
  x.clksel.toBits
    + 8 * (if x.temp_dis then 1 else 0)
    + 32 * (if x.cycle then 1 else 0)
    + 64 * (if x.sleep then 1 else 0)
    + 128 * (if x.device_reset then 1 else 0)

/-- `PwrMgmt1::from_bytes`: unpack a byte into the fields, ignoring the
skipped reserved bit (bit 4). -/
def PwrMgmt1.from_bytes (b : Nat) : PwrMgmt1 :=
  ⟨ClockSource.ofBits (b % 8), b.testBit 3, b.testBit 5, b.testBit 6, b.testBit 7⟩

/-- The `AccelConfig` bitfield struct: 3 skipped bits (bits 0-2), `afs_sel`
(2 bits, bits 3-4), `za_st` (bit 5), `ya_st` (bit 6), `xa_st` (bit 7). -/
structure AccelConfig where
  afs_sel : AccelRange
  za_st : Bool
  ya_st : Bool
  xa_st : Bool
deriving DecidableEq, Repr

/-- `AccelConfig::new()`: the all-zero bitfield. -/
def AccelConfig.new : AccelConfig :=
  ⟨.G2, false, false, false⟩

/-- Builder `with_afs_sel`. -/
def AccelConfig.with_afs_sel (x : AccelConfig) (r : AccelRange) : AccelConfig :=
  { x with afs_sel := r }

/-- Builder `with_za_st`. -/
def AccelConfig.with_za_st (x : AccelConfig) (b : Bool) : AccelConfig :=
  { x with za_st := b }

/-- Builder `with_ya_st`. -/
def AccelConfig.with_ya_st (x : AccelConfig) (b : Bool) : AccelConfig :=
  { x with ya_st := b }

/-- Builder `with_xa_st`. -/
def AccelConfig.with_xa_st (x : AccelConfig) (b : Bool) : AccelConfig :=
  { x with xa_st := b }

/-- The packed byte of an `AccelConfig` value: skipped bits 0-2 are 0,
`afs_sel` at bits 3-4, `za_st` at bit 5, `ya_st` at bit 6, `xa_st` at bit 7. -/
def AccelConfig.bytes (x : AccelConfig) : Nat :=
  8 * x.afs_sel.toBits
    + 32 * (if x.za_st then 1 else 0)
    + 64 * (if x.ya_st then 1 else 0)
    + 128 * (if x.xa_st then 1 else 0)

/-- `AccelConfig::from_bytes`: unpack a byte, ignoring the skipped bits 0-2. -/
def AccelConfig.from_bytes (b : Nat) : AccelConfig :=
  ⟨AccelRange.ofBits ((b >>> 3) % 4), b.testBit 5, b.testBit 6, b.testBit 7⟩

/-- The `GyroConfig` bitfield struct: 3 skipped bits (bits 0-2), `fs_sel`
(2 bits, bits 3-4), `zg_st` (bit 5), `yg_st` (bit 6), `xg_st` (bit 7). -/
structure GyroConfig where
  fs_sel : GyroRange
  zg_st : Bool
  yg_st : Bool
  xg_st : Bool
deriving DecidableEq, Repr

/-- `GyroConfig::new()`: the all-zero bitfield. -/
def GyroConfig.new : GyroConfig :=
  ⟨.D250, false, false, false⟩

/-- Builder `with_fs_sel`. -/
def GyroConfig.with_fs_sel (x : GyroConfig) (r : GyroRange) : GyroConfig :=
  { x with fs_sel := r }

/-- Builder `with_zg_st`. -/
def GyroConfig.with_zg_st (x : GyroConfig) (b : Bool) : GyroConfig :=
  { x with zg_st := b }

/-- Builder `with_yg_st`. -/
def GyroConfig.with_yg_st (x : GyroConfig) (b : Bool) : GyroConfig :=
  { x with yg_st := b }

/-- Builder `with_xg_st`. -/
def GyroConfig.with_xg_st (x : GyroConfig) (b : Bool) : GyroConfig :=
  { x with xg_st := b }

/-- The packed byte of a `GyroConfig` value: skipped bits 0-2 are 0,
`fs_sel` at bits 3-4, `zg_st` at bit 5, `yg_st` at bit 6, `xg_st` at bit 7. -/
def GyroConfig.bytes (x : GyroConfig) : Nat :=
  8 * x.fs_sel.toBits
    + 32 * (if x.zg_st then 1 else 0)
    + 64 * (if x.yg_st then 1 else 0)
    + 128 * (if x.xg_st then 1 else 0)

/-- `GyroConfig::from_bytes`: unpack a byte, ignoring the skipped bits 0-2. -/
def GyroConfig.from_bytes (b : Nat) : GyroConfig :=
  ⟨GyroRange.ofBits ((b >>> 3) % 4), b.testBit 5, b.testBit 6, b.testBit 7⟩

/-- Underlying bus fault, mirroring the variants of `embassy_rp::i2c::Error`;
its payload is opaque to the driver, which only wraps it. -/
inductive I2cError where
  | Abort (reason : Nat)
  | InvalidReadBufferLength
  | InvalidWriteBufferLength
  | AddressOutOfRange (addr : Nat)
  | AddressReserved (addr : Nat)
deriving DecidableEq, Repr

/-- `enum DroneError`: either a wrapped transport fault (`I2c`, which in the
source stores the `Debug`-formatted text of the bus error; here we keep the
fault value itself) or an identity mismatch carrying the observed byte
(`InvalidChipId`). -/
inductive DroneError where
  | I2c (e : I2cError)
  | InvalidChipId (id : Nat)
deriving DecidableEq, Repr

/-- The `From<embassy_rp::i2c::Error> for DroneError` conversion applied by
the `?` operator: every bus fault becomes the transport-wrapped kind. -/
def DroneError.fromI2c (e : I2cError) : DroneError :=
  .I2c e

/-- Is this result either a success or a transport-wrapped error (i.e. not an
identity mismatch)? -/
def okOrTransport {α : Type} : Except DroneError α → Bool
  | .ok _ => true
  | .error (.I2c _) => true
  | .error (.InvalidChipId _) => false

/-- One observable step performed by the driver: an I2C write of a payload to
a bus address (`i2c.write_async`), a combined write-then-read transaction
(`i2c.write_read_async`, with the register-pointer payload and the read buffer
length), or a timer suspension of a given duration (`Timer::after`). -/
inductive BusEvent where
  | write_async (addr : Nat) (payload : List Nat)
  | write_read_async (addr : Nat) (payload : List Nat) (readLen : Nat)
  | timer_after (duration : Nat)
deriving DecidableEq, Repr

/-- Does the event address the bus at address `a`?  Timer suspensions do not
touch the bus and vacuously satisfy any address. -/
def BusEvent.usesAddr (a : Nat) : BusEvent → Bool
  | .write_async x _ => x == a
  | .write_read_async x _ _ => x == a
  | .timer_after _ => true

/-- Stub transport standing for `embassy_rp::i2c::I2c`: it decides the outcome
of each transaction from the address and payload.  `write_async` may fail with
a bus fault; `write_read_async` either fails or produces the single byte read
(the driver always reads a one-byte buffer). -/
structure I2cStub where
  write_async : Nat → List Nat → Except I2cError Unit
  write_read_async : Nat → List Nat → Except I2cError Nat

/-- Outcome of a driver operation: the returned `Result` paired with the
ordered trace of bus transactions and timer suspensions it performed. -/
abbrev DriverOut (α : Type) : Type :=
  Except DroneError α × List BusEvent

/-- Sequencing with the `?` operator: if the first operation failed, its error
is returned and nothing further runs; otherwise the continuation runs and its
trace is appended. -/
def seqE {α β : Type} (x : DriverOut α) (f : α → DriverOut β) : DriverOut β :=
  match x.1 with
  | .error e => (.error e, x.2)
  | .ok a => ((f a).1, x.2 ++ (f a).2)

namespace Mpu6050

/-- Private helper `Mpu6050::write`: one `i2c.write_async(ADDR, [reg, bits[0]])`
transaction; a bus fault is wrapped by the `From` conversion. -/
def write (st : I2cStub) (reg : Nat) (bits : Nat) : DriverOut Unit :=
  match st.write_async ADDR [reg, bits] with
  | .ok _ => (.ok (), [.write_async ADDR [reg, bits]])
  | .error e => (.error (DroneError.fromI2c e), [.write_async ADDR [reg, bits]])

/-- Private helper `Mpu6050::read`: one
`i2c.write_read_async(ADDR, [reg], &mut data)` transaction into a one-byte
buffer, returning `data[0]`. -/
def read (st : I2cStub) (reg : Nat) : DriverOut Nat :=
  match st.write_read_async ADDR [reg] with
  | .ok b => (.ok b, [.write_read_async ADDR [reg] 1])
  | .error e => (.error (DroneError.fromI2c e), [.write_read_async ADDR [reg] 1])

/-- `Mpu6050::id`: read the identity register. -/
def id (st : I2cStub) : DriverOut Nat :=
  read st WHO_AM_I

/-- `Mpu6050::wake`: write `0x00` to `PWR_MGMT_1`, then suspend for `delay`. -/
def wake (st : I2cStub) (delay : Nat) : DriverOut Unit :=
  seqE (write st PWR_MGMT_1 0x0) fun _ => (.ok (), [.timer_after delay])

/-- `Mpu6050::verify`: read the identity and compare it with
`DEFAULT_SLAVE_ADDR`, failing with `InvalidChipId` on mismatch. -/
def verify (st : I2cStub) : DriverOut Unit :=
  seqE (id st) fun b =>
    if b ≠ DEFAULT_SLAVE_ADDR then (.error (.InvalidChipId b), [])
    else (.ok (), [])

/-- `Mpu6050::set_accel_range`: full overwrite of `ACCEL_CONFIG` with
`AccelConfig::new().with_afs_sel(accel_range)`. -/
def set_accel_range (st : I2cStub) (accel_range : AccelRange) : DriverOut Unit :=
  seqE (write st ACCEL_CONFIG (AccelConfig.new.with_afs_sel accel_range).bytes)
    fun _ => (.ok (), [])

/-- `Mpu6050::set_accel_range_with_self_test`: full overwrite of
`ACCEL_CONFIG` with the range and all three self-test bits set. -/
def set_accel_range_with_self_test (st : I2cStub) (accel_range : AccelRange) :
    DriverOut Unit :=
  seqE (write st ACCEL_CONFIG
      (((((AccelConfig.new.with_afs_sel accel_range).with_xa_st true).with_ya_st
        true).with_za_st true).bytes))
    fun _ => (.ok (), [])

/-- `Mpu6050::set_gyro_range`: full overwrite of `GYRO_CONFIG` with
`GyroConfig::new().with_fs_sel(gyro_range)`. -/
def set_gyro_range (st : I2cStub) (gyro_range : GyroRange) : DriverOut Unit :=
  seqE (write st GYRO_CONFIG (GyroConfig.new.with_fs_sel gyro_range).bytes)
    fun _ => (.ok (), [])

/-- `Mpu6050::set_gyro_range_with_self_test`: full overwrite of `GYRO_CONFIG`
with the range and all three self-test bits set. -/
def set_gyro_range_with_self_test (st : I2cStub) (gyro_range : GyroRange) :
    DriverOut Unit :=
  seqE (write st GYRO_CONFIG
      (((((GyroConfig.new.with_fs_sel gyro_range).with_xg_st true).with_yg_st
        true).with_zg_st true).bytes))
    fun _ => (.ok (), [])

/-- `Mpu6050::set_clock_source`: full overwrite of `PWR_MGMT_1` with
`PwrMgmt1::new().with_clksel(source)`. -/
def set_clock_source (st : I2cStub) (source : ClockSource) : DriverOut Unit :=
  seqE (write st PWR_MGMT_1 (PwrMgmt1.new.with_clksel source).bytes)
    fun _ => (.ok (), [])

/-- `Mpu6050::init_with_gyro_accel_range`: `wake(delay)?` then `verify()?`
then `set_accel_range(accel_range)?` then `set_gyro_range(gyro_range)?`. -/
def init_with_gyro_accel_range (st : I2cStub) (delay : Nat)
    (accel_range : AccelRange) (gyro_range : GyroRange) : DriverOut Unit :=
  seqE (wake st delay) fun _ =>
    seqE (verify st) fun _ =>
      seqE (set_accel_range st accel_range) fun _ =>
        seqE (set_gyro_range st gyro_range) fun _ =>
          (.ok (), [])

/-- `Mpu6050::init`: `init_with_gyro_accel_range` with the default ranges
`AccelRange::G2` and `GyroRange::D250`. -/
def init (st : I2cStub) (delay : Nat) : DriverOut Unit :=
  seqE (init_with_gyro_accel_range st delay .G2 .D250) fun _ => (.ok (), [])

end Mpu6050

/-- Lift a transport outcome into the driver error type, as the `?` operator
does through the `From` conversion. -/
def liftI2c {α : Type} : Except I2cError α → Except DroneError α
  | .ok a => .ok a
  | .error e => .error (.I2c e)

theorem write_eq (st : I2cStub) (reg bits : Nat) :
    Mpu6050.write st reg bits
      = (liftI2c (st.write_async ADDR [reg, bits]), [.write_async ADDR [reg, bits]]) := by
  unfold Mpu6050.write
  cases st.write_async ADDR [reg, bits] <;> rfl

theorem read_eq (st : I2cStub) (reg : Nat) :
    Mpu6050.read st reg
      = (liftI2c (st.write_read_async ADDR [reg]), [.write_read_async ADDR [reg] 1]) := by
  unfold Mpu6050.read
  cases st.write_read_async ADDR [reg] <;> rfl

theorem seqE_ok {α β : Type} (a : α) (t : List BusEvent) (f : α → DriverOut β) :
    seqE (.ok a, t) f = ((f a).1, t ++ (f a).2) :=
  rfl

theorem seqE_error {α β : Type} (e : DroneError) (t : List BusEvent) (f : α → DriverOut β) :
    seqE (.error e, t) f = (.error e, t) :=
  rfl

theorem setter_eq (st : I2cStub) (reg bits : Nat) :
    (seqE (Mpu6050.write st reg bits) fun _ => ((Except.ok (), []) : DriverOut Unit))
      = (liftI2c (st.write_async ADDR [reg, bits]), [.write_async ADDR [reg, bits]]) := by
  rw [write_eq]
  cases st.write_async ADDR [reg, bits] <;> rfl

theorem okOrTransport_liftI2c {α : Type} (x : Except I2cError α) :
    okOrTransport (liftI2c x) = true := by
  cases x <;> rfl

/-- C3: for every representable field assignment of `PwrMgmt1`, `AccelConfig`
and `GyroConfig`, decoding the encoded byte yields back exactly the same
field assignment: `from_bytes (bytes x) = x` for each of the three one-byte
codecs. -/
theorem C3_codec_roundtrip :
    (∀ x : PwrMgmt1, PwrMgmt1.from_bytes x.bytes = x)
    ∧ (∀ x : AccelConfig, AccelConfig.from_bytes x.bytes = x)
    ∧ (∀ x : GyroConfig, GyroConfig.from_bytes x.bytes = x) := by
  refine ⟨fun x => ?_, fun x => ?_, fun x => ?_⟩
  · obtain ⟨c, t, cy, s, d⟩ := x
    cases c <;> cases t <;> cases cy <;> cases s <;> cases d <;> decide
  · obtain ⟨r, z, y, xs⟩ := x
    cases r <;> cases z <;> cases y <;> cases xs <;> decide
  · obtain ⟨r, z, y, xs⟩ := x
    cases r <;> cases z <;> cases y <;> cases xs <;> decide

/-- C4 counterexample: the claimed MSB-first layout (clksel in bits 5-7,
device_reset in bit 0) is false on the code.  Setting only `device_reset`
encodes to `0b10000000`, whose bit 0 is clear, and setting only
`clksel = PllXAxis` leaves the top three bits of the byte zero rather than
holding the `PllXAxis` discriminant. -/
theorem C4_msb_layout_counterexample :
    (PwrMgmt1.new.with_device_reset true).bytes = 0b10000000
    ∧ (PwrMgmt1.new.with_device_reset true).bytes.testBit 0 = false
    ∧ (PwrMgmt1.new.with_clksel .PllXAxis).bytes >>> 5 = 0
    ∧ ClockSource.PllXAxis.toBits = 1 := by
  decide

/-- C4 (amended): the encoded `PwrMgmt1` byte places its fields from least
significant to most significant in the order clksel (bits 0-2), temp_dis
(bit 3), reserved (bit 4, always zero), cycle (bit 5), sleep (bit 6),
device_reset (bit 7), and the byte fits in 8 bits. -/
theorem C4_pwrmgmt1_layout (x : PwrMgmt1) :
    x.bytes % 8 = x.clksel.toBits
    ∧ x.bytes.testBit 3 = x.temp_dis
    ∧ x.bytes.testBit 4 = false
    ∧ x.bytes.testBit 5 = x.cycle
    ∧ x.bytes.testBit 6 = x.sleep
    ∧ x.bytes.testBit 7 = x.device_reset
    ∧ x.bytes < 256 := by
  obtain ⟨c, t, cy, s, d⟩ := x
  cases c <;> cases t <;> cases cy <;> cases s <;> cases d <;> decide

/-- C5: `PwrMgmt1::new()` with only `device_reset` set encodes to
`0b10000000`, and with only `clksel = PllXAxis` encodes to `0b00000001`. -/
theorem C5_pwrmgmt1_encodings :
    (PwrMgmt1.new.with_device_reset true).bytes = 0b10000000
    ∧ (PwrMgmt1.new.with_clksel .PllXAxis).bytes = 0b00000001 := by
  decide

/-- C6: `set_accel_range_with_self_test` writes to `ACCEL_CONFIG` one byte
carrying the range in `afs_sel` with all three self-test bits set (for `G8`
the byte `0xF0`: bits 5-7 set, bits 3-4 holding `0b10`, bits 0-2 zero),
while `set_accel_range` writes one byte carrying the range with all
self-test bits cleared; both are single full overwrites of that register. -/
theorem C6_accel_range_bytes (st : I2cStub) (r : AccelRange) :
    (Mpu6050.set_accel_range_with_self_test st r).2
      = [.write_async ADDR [ACCEL_CONFIG,
          (((((AccelConfig.new.with_afs_sel r).with_xa_st true).with_ya_st
            true).with_za_st true).bytes)]]
    ∧ (Mpu6050.set_accel_range st r).2
      = [.write_async ADDR [ACCEL_CONFIG, (AccelConfig.new.with_afs_sel r).bytes]]
    ∧ AccelConfig.from_bytes
        (((((AccelConfig.new.with_afs_sel r).with_xa_st true).with_ya_st
          true).with_za_st true).bytes) = ⟨r, true, true, true⟩
    ∧ AccelConfig.from_bytes ((AccelConfig.new.with_afs_sel r).bytes)
        = ⟨r, false, false, false⟩
    ∧ ((((((AccelConfig.new.with_afs_sel r).with_xa_st true).with_ya_st
          true).with_za_st true).bytes) >>> 3) % 4 = r.toBits
    ∧ (((((AccelConfig.new.with_afs_sel r).with_xa_st true).with_ya_st
          true).with_za_st true).bytes) % 8 = 0
    ∧ (((((AccelConfig.new.with_afs_sel r).with_xa_st true).with_ya_st
          true).with_za_st true).bytes).testBit 5 = true
    ∧ (((((AccelConfig.new.with_afs_sel r).with_xa_st true).with_ya_st
          true).with_za_st true).bytes).testBit 6 = true
    ∧ (((((AccelConfig.new.with_afs_sel r).with_xa_st true).with_ya_st
          true).with_za_st true).bytes).testBit 7 = true
    ∧ (((((AccelConfig.new.with_afs_sel .G8).with_xa_st true).with_ya_st
          true).with_za_st true).bytes) = 0xF0 := by
  refine ⟨?_, ?_, ?_, ?_, ?_, ?_, ?_, ?_, ?_, ?_⟩
  · rw [Mpu6050.set_accel_range_with_self_test, setter_eq]
  · rw [Mpu6050.set_accel_range, setter_eq]
  · cases r <;> decide
  · cases r <;> decide
  · cases r <;> decide
  · cases r <;> decide
  · cases r <;> decide
  · cases r <;> decide
  · cases r <;> decide
  · decide

/-- Stub transport whose transactions all succeed, every read returning the
byte `b`. -/
def stubOk (b : Nat) : I2cStub :=
  ⟨fun _ _ => .ok (), fun _ _ => .ok b⟩

/-- Stub transport whose writes fail with the bus fault `e`. -/
def stubWriteFail (e : I2cError) : I2cStub :=
  ⟨fun _ _ => .error e, fun _ _ => .ok 0⟩

/-- Stub transport whose writes succeed and whose reads fail with the bus
fault `e`. -/
def stubReadFail (e : I2cError) : I2cStub :=
  ⟨fun _ _ => .ok (), fun _ _ => .error e⟩

/-- C7: `wake(delay)` issues exactly one bus write, with payload
`[PWR_MGMT_1, 0x00]`, and then suspends for `delay` before returning
successfully; on a transport failure of that write it returns the wrapped
transport error without performing the delay. -/
theorem C7_wake (st : I2cStub) (delay : Nat) :
    (st.write_async ADDR [PWR_MGMT_1, 0x0] = .ok () →
      Mpu6050.wake st delay
        = (.ok (), [.write_async ADDR [PWR_MGMT_1, 0x0], .timer_after delay]))
    ∧ (∀ e, st.write_async ADDR [PWR_MGMT_1, 0x0] = .error e →
      Mpu6050.wake st delay
        = (.error (.I2c e), [.write_async ADDR [PWR_MGMT_1, 0x0]]))
    ∧ PWR_MGMT_1 = 0x6B := by
  refine ⟨fun h => ?_, fun e h => ?_, rfl⟩
  · rw [Mpu6050.wake, write_eq, h]
    rfl
  · rw [Mpu6050.wake, write_eq, h]
    rfl

/-- C7 witness: concrete runs of `wake` on an always-succeeding stub and on a
stub whose write fails. -/
theorem C7_wake_witness :
    Mpu6050.wake (stubOk 0x68) 5
      = (.ok (), [.write_async ADDR [PWR_MGMT_1, 0x0], .timer_after 5])
    ∧ Mpu6050.wake (stubWriteFail .InvalidWriteBufferLength) 5
      = (.error (.I2c .InvalidWriteBufferLength),
         [.write_async ADDR [PWR_MGMT_1, 0x0]]) :=
  ⟨(C7_wake (stubOk 0x68) 5).1 rfl,
   (C7_wake (stubWriteFail .InvalidWriteBufferLength) 5).2.1 _ rfl⟩

/-- C1: `verify` succeeds exactly when the identity read returns
`DEFAULT_SLAVE_ADDR = 0x68`; any other byte yields the identity-mismatch
error carrying that byte, and a transport failure of the read propagates as
the transport-wrapped error. -/
theorem C1_verify (st : I2cStub) :
    DEFAULT_SLAVE_ADDR = 0x68
    ∧ (∀ b, st.write_read_async ADDR [WHO_AM_I] = .ok b →
        (Mpu6050.verify st).1
          = if b = DEFAULT_SLAVE_ADDR then .ok () else .error (.InvalidChipId b))
    ∧ (∀ e, st.write_read_async ADDR [WHO_AM_I] = .error e →
        (Mpu6050.verify st).1 = .error (.I2c e)) := by
  refine ⟨rfl, fun b h => ?_, fun e h => ?_⟩
  · rw [Mpu6050.verify, Mpu6050.id, read_eq, h]
    by_cases hb : b = DEFAULT_SLAVE_ADDR <;> simp [seqE, liftI2c, hb]
  · rw [Mpu6050.verify, Mpu6050.id, read_eq, h]
    rfl

/-- C1 witness: `verify` on stubs returning `0x68` and `0x69`, and on a stub
whose read fails. -/
theorem C1_verify_witness :
    (Mpu6050.verify (stubOk 0x68)).1 = .ok ()
    ∧ (Mpu6050.verify (stubOk 0x69)).1 = .error (.InvalidChipId 0x69)
    ∧ (Mpu6050.verify (stubReadFail (.Abort 3))).1 = .error (.I2c (.Abort 3)) := by
  refine ⟨?_, ?_, ?_⟩
  · have h := (C1_verify (stubOk 0x68)).2.1 0x68 rfl
    simpa using h
  · have h := (C1_verify (stubOk 0x69)).2.1 0x69 rfl
    simpa using h
  · exact (C1_verify (stubReadFail (.Abort 3))).2.2 (.Abort 3) rfl

/-- C2: `init_with_gyro_accel_range` performs `wake`, `verify`,
`set_accel_range`, `set_gyro_range` in that exact order, each step gated on
every earlier step succeeding, stops at the first failing step and returns
its error unchanged; when `verify` fails, `wake` has been performed exactly
once and neither range setter was called. -/
theorem C2_init_sequencing (st : I2cStub) (delay : Nat) (ar : AccelRange)
    (gr : GyroRange) :
    (∀ e, (Mpu6050.wake st delay).1 = .error e →
      Mpu6050.init_with_gyro_accel_range st delay ar gr
        = (.error e, (Mpu6050.wake st delay).2))
    ∧ (∀ e, (Mpu6050.wake st delay).1 = .ok () →
        (Mpu6050.verify st).1 = .error e →
      Mpu6050.init_with_gyro_accel_range st delay ar gr
        = (.error e, (Mpu6050.wake st delay).2 ++ (Mpu6050.verify st).2))
    ∧ (∀ e, (Mpu6050.wake st delay).1 = .ok () →
        (Mpu6050.verify st).1 = .ok () →
        (Mpu6050.set_accel_range st ar).1 = .error e →
      Mpu6050.init_with_gyro_accel_range st delay ar gr
        = (.error e, (Mpu6050.wake st delay).2 ++ (Mpu6050.verify st).2
            ++ (Mpu6050.set_accel_range st ar).2))
    ∧ (∀ e, (Mpu6050.wake st delay).1 = .ok () →
        (Mpu6050.verify st).1 = .ok () →
        (Mpu6050.set_accel_range st ar).1 = .ok () →
        (Mpu6050.set_gyro_range st gr).1 = .error e →
      Mpu6050.init_with_gyro_accel_range st delay ar gr
        = (.error e, (Mpu6050.wake st delay).2 ++ (Mpu6050.verify st).2
            ++ (Mpu6050.set_accel_range st ar).2 ++ (Mpu6050.set_gyro_range st gr).2))
    ∧ ((Mpu6050.wake st delay).1 = .ok () →
        (Mpu6050.verify st).1 = .ok () →
        (Mpu6050.set_accel_range st ar).1 = .ok () →
        (Mpu6050.set_gyro_range st gr).1 = .ok () →
      Mpu6050.init_with_gyro_accel_range st delay ar gr
        = (.ok (), (Mpu6050.wake st delay).2 ++ (Mpu6050.verify st).2
            ++ (Mpu6050.set_accel_range st ar).2 ++ (Mpu6050.set_gyro_range st gr).2))
    ∧ (∀ b, st.write_async ADDR [PWR_MGMT_1, 0x0] = .ok () →
        st.write_read_async ADDR [WHO_AM_I] = .ok b →
        b ≠ DEFAULT_SLAVE_ADDR →
      Mpu6050.init_with_gyro_accel_range st delay ar gr
        = (.error (.InvalidChipId b),
           [.write_async ADDR [PWR_MGMT_1, 0x0], .timer_after delay,
            .write_read_async ADDR [WHO_AM_I] 1])) := by
  refine ⟨fun e hw => ?_, fun e hw hv => ?_, fun e hw hv ha => ?_,
    fun e hw hv ha hg => ?_, fun hw hv ha hg => ?_, fun b h1 h2 hb => ?_⟩
  · simp [Mpu6050.init_with_gyro_accel_range, seqE, hw]
  · simp [Mpu6050.init_with_gyro_accel_range, seqE, hw, hv]
  · simp [Mpu6050.init_with_gyro_accel_range, seqE, hw, hv, ha]
  · simp [Mpu6050.init_with_gyro_accel_range, seqE, hw, hv, ha, hg]
  · simp [Mpu6050.init_with_gyro_accel_range, seqE, hw, hv, ha, hg]
  · have hw : Mpu6050.wake st delay
        = (.ok (), [.write_async ADDR [PWR_MGMT_1, 0x0], .timer_after delay]) := by
      rw [Mpu6050.wake, write_eq, h1]
      rfl
    have hv : Mpu6050.verify st
        = (.error (.InvalidChipId b), [.write_read_async ADDR [WHO_AM_I] 1]) := by
      rw [Mpu6050.verify, Mpu6050.id, read_eq, h2]
      simp [seqE, liftI2c, hb]
    simp [Mpu6050.init_with_gyro_accel_range, seqE, hw, hv]

/-- C2 witness: a concrete run in which the identity read returns `0x69`, so
`wake` happens once, `verify` fails with the identity mismatch, and neither
range setter writes its register. -/
theorem C2_init_sequencing_witness :
    Mpu6050.init_with_gyro_accel_range (stubOk 0x69) 7 .G4 .D500
      = (.error (.InvalidChipId 0x69),
         [.write_async ADDR [PWR_MGMT_1, 0x0], .timer_after 7,
          .write_read_async ADDR [WHO_AM_I] 1]) :=
  (C2_init_sequencing (stubOk 0x69) 7 .G4 .D500).2.2.2.2.2 0x69 rfl rfl (by decide)

/-- C8: for every clock source, `set_clock_source` writes to `PWR_MGMT_1` a
single full byte in which only the clksel field holds the source and every
other field (temp_dis, cycle, sleep, device_reset, and the reserved bit) is
zero. -/
theorem C8_set_clock_source (st : I2cStub) (s : ClockSource) :
    (Mpu6050.set_clock_source st s).2
      = [.write_async ADDR [PWR_MGMT_1, (PwrMgmt1.new.with_clksel s).bytes]]
    ∧ PwrMgmt1.from_bytes ((PwrMgmt1.new.with_clksel s).bytes)
        = ⟨s, false, false, false, false⟩
    ∧ (PwrMgmt1.new.with_clksel s).bytes % 8 = s.toBits
    ∧ (PwrMgmt1.new.with_clksel s).bytes.testBit 3 = false
    ∧ (PwrMgmt1.new.with_clksel s).bytes.testBit 4 = false
    ∧ (PwrMgmt1.new.with_clksel s).bytes.testBit 5 = false
    ∧ (PwrMgmt1.new.with_clksel s).bytes.testBit 6 = false
    ∧ (PwrMgmt1.new.with_clksel s).bytes.testBit 7 = false := by
  refine ⟨?_, ?_, ?_, ?_, ?_, ?_, ?_, ?_⟩
  · rw [Mpu6050.set_clock_source, setter_eq]
  all_goals cases s <;> decide

theorem seqE_all_addr {α β : Type} (x : DriverOut α) (f : α → DriverOut β)
    (hx : x.2.all (BusEvent.usesAddr ADDR) = true)
    (hf : ∀ a, ((f a).2.all (BusEvent.usesAddr ADDR)) = true) :
    ((seqE x f).2.all (BusEvent.usesAddr ADDR)) = true := by
  unfold seqE
  cases hx1 : x.1 with
  | error e => simpa using hx
  | ok a => simp [List.all_append, hx, hf a]

theorem write_all_addr (st : I2cStub) (reg bits : Nat) :
    ((Mpu6050.write st reg bits).2.all (BusEvent.usesAddr ADDR)) = true := by
  rw [write_eq]
  simp [BusEvent.usesAddr]

theorem read_all_addr (st : I2cStub) (reg : Nat) :
    ((Mpu6050.read st reg).2.all (BusEvent.usesAddr ADDR)) = true := by
  rw [read_eq]
  simp [BusEvent.usesAddr]

theorem wake_all_addr (st : I2cStub) (delay : Nat) :
    ((Mpu6050.wake st delay).2.all (BusEvent.usesAddr ADDR)) = true := by
  unfold Mpu6050.wake
  exact seqE_all_addr _ _ (write_all_addr st PWR_MGMT_1 0x0)
    (fun _ => by simp [BusEvent.usesAddr])

theorem verify_all_addr (st : I2cStub) :
    ((Mpu6050.verify st).2.all (BusEvent.usesAddr ADDR)) = true := by
  unfold Mpu6050.verify
  refine seqE_all_addr _ _ (read_all_addr st WHO_AM_I) fun b => ?_
  by_cases hb : b ≠ DEFAULT_SLAVE_ADDR <;> simp [hb]

theorem setter_all_addr (st : I2cStub) (reg bits : Nat) :
    ((seqE (Mpu6050.write st reg bits)
        fun _ => ((Except.ok (), []) : DriverOut Unit)).2.all
      (BusEvent.usesAddr ADDR)) = true := by
  rw [setter_eq]
  simp [BusEvent.usesAddr]

theorem init_with_all_addr (st : I2cStub) (delay : Nat) (ar : AccelRange)
    (gr : GyroRange) :
    ((Mpu6050.init_with_gyro_accel_range st delay ar gr).2.all
      (BusEvent.usesAddr ADDR)) = true := by
  unfold Mpu6050.init_with_gyro_accel_range
  refine seqE_all_addr _ _ (wake_all_addr st delay) fun _ => ?_
  refine seqE_all_addr _ _ (verify_all_addr st) fun _ => ?_
  refine seqE_all_addr _ _ (setter_all_addr st ACCEL_CONFIG _) fun _ => ?_
  exact seqE_all_addr _ _ (setter_all_addr st GYRO_CONFIG _) fun _ => rfl

/-- C9: every bus transaction of every public operation addresses the single
fixed bus address `ADDR = 0xD0`, and the only identity comparison is against
the single fixed constant `DEFAULT_SLAVE_ADDR = 0x68`. -/
theorem C9_fixed_address (st : I2cStub) (delay : Nat) (ar : AccelRange)
    (gr : GyroRange) (cs : ClockSource) :
    ADDR = 0xD0
    ∧ DEFAULT_SLAVE_ADDR = 0x68
    ∧ ((Mpu6050.id st).2.all (BusEvent.usesAddr ADDR)) = true
    ∧ ((Mpu6050.wake st delay).2.all (BusEvent.usesAddr ADDR)) = true
    ∧ ((Mpu6050.verify st).2.all (BusEvent.usesAddr ADDR)) = true
    ∧ ((Mpu6050.set_accel_range st ar).2.all (BusEvent.usesAddr ADDR)) = true
    ∧ ((Mpu6050.set_accel_range_with_self_test st ar).2.all
        (BusEvent.usesAddr ADDR)) = true
    ∧ ((Mpu6050.set_gyro_range st gr).2.all (BusEvent.usesAddr ADDR)) = true
    ∧ ((Mpu6050.set_gyro_range_with_self_test st gr).2.all
        (BusEvent.usesAddr ADDR)) = true
    ∧ ((Mpu6050.set_clock_source st cs).2.all (BusEvent.usesAddr ADDR)) = true
    ∧ ((Mpu6050.init_with_gyro_accel_range st delay ar gr).2.all
        (BusEvent.usesAddr ADDR)) = true
    ∧ ((Mpu6050.init st delay).2.all (BusEvent.usesAddr ADDR)) = true
    ∧ (∀ b, st.write_read_async ADDR [WHO_AM_I] = .ok b →
        ((Mpu6050.verify st).1 = .ok () ↔ b = DEFAULT_SLAVE_ADDR)) := by
  refine ⟨rfl, rfl, read_all_addr st WHO_AM_I, wake_all_addr st delay,
    verify_all_addr st, setter_all_addr st ACCEL_CONFIG _,
    setter_all_addr st ACCEL_CONFIG _, setter_all_addr st GYRO_CONFIG _,
    setter_all_addr st GYRO_CONFIG _, setter_all_addr st PWR_MGMT_1 _,
    init_with_all_addr st delay ar gr, ?_, fun b h => ?_⟩
  · unfold Mpu6050.init
    exact seqE_all_addr _ _ (init_with_all_addr st delay .G2 .D250) fun _ => rfl
  · rw [Mpu6050.verify, Mpu6050.id, read_eq, h]
    by_cases hb : b = DEFAULT_SLAVE_ADDR <;> simp [seqE, liftI2c, hb]

/-- C9 witness: on a stub whose identity read returns `0x68`, `verify`
succeeds, instantiating the identity-comparison clause. -/
theorem C9_fixed_address_witness :
    (Mpu6050.verify (stubOk 0x68)).1 = .ok () :=
  ((C9_fixed_address (stubOk 0x68) 1 .G2 .D250
      .Internal8MHz).2.2.2.2.2.2.2.2.2.2.2.2 0x68 rfl).mpr rfl

/-- C10: the identity-mismatch error can only come from `verify`: every other
public operation, over every stub and input, either succeeds or fails with
the transport-wrapped kind, and the conversion from a bus fault always
yields the transport-wrapped kind. -/
theorem C10_invalid_chip_only_from_verify (st : I2cStub) (delay : Nat)
    (ar : AccelRange) (gr : GyroRange) (cs : ClockSource) :
    okOrTransport (Mpu6050.id st).1 = true
    ∧ okOrTransport (Mpu6050.wake st delay).1 = true
    ∧ okOrTransport (Mpu6050.set_accel_range st ar).1 = true
    ∧ okOrTransport (Mpu6050.set_accel_range_with_self_test st ar).1 = true
    ∧ okOrTransport (Mpu6050.set_gyro_range st gr).1 = true
    ∧ okOrTransport (Mpu6050.set_gyro_range_with_self_test st gr).1 = true
    ∧ okOrTransport (Mpu6050.set_clock_source st cs).1 = true
    ∧ (∀ e, okOrTransport
        ((Except.error (DroneError.fromI2c e)) : Except DroneError Unit) = true) := by
  refine ⟨?_, ?_, ?_, ?_, ?_, ?_, ?_, fun e => rfl⟩
  · rw [Mpu6050.id, read_eq]
    exact okOrTransport_liftI2c _
  · rw [Mpu6050.wake, write_eq]
    cases hX : st.write_async ADDR [PWR_MGMT_1, 0x0] <;>
      simp [seqE, liftI2c, okOrTransport]
  · rw [Mpu6050.set_accel_range, setter_eq]
    exact okOrTransport_liftI2c _
  · rw [Mpu6050.set_accel_range_with_self_test, setter_eq]
    exact okOrTransport_liftI2c _
  · rw [Mpu6050.set_gyro_range, setter_eq]
    exact okOrTransport_liftI2c _
  · rw [Mpu6050.set_gyro_range_with_self_test, setter_eq]
    exact okOrTransport_liftI2c _
  · rw [Mpu6050.set_clock_source, setter_eq]
    exact okOrTransport_liftI2c _

end Drone
